import Mathlib

/-!
Verification of the command-processor FIFO core (VideoCommon/CommandProcessor.cpp):
ring-buffer geometry, MMIO register surface, watermark flags and the edge-triggered
interrupt engine, under both the single-timeline (single core) and dual-timeline
(dual core) execution modes.

The state of the module (the `SCPFifoStruct fifo` global, the control register,
the interrupt flags and the mirrored ProcessorInterface shadow registers) is
modelled as one explicit record `CPState`; every external side effect
(interrupt sink, scheduler, consumer wake hints) is logged in an event list.
32-bit machine integers are modelled as `Nat` with explicit reduction mod 2^32.
-/

namespace CommandProcessor

/-- Size in bytes of one gather-pipe burst (GATHER_PIPE_SIZE in Core/HW/GPFifo.h). -/
def GATHER_PIPE_SIZE : Nat := 32

/-- Modulus of 32-bit unsigned arithmetic. -/
def M32 : Nat := 4294967296

/-- Wrapping 32-bit addition. -/
def add32 (a b : Nat) : Nat := (a + b) % M32

/-- Wrapping 32-bit subtraction; operands are reduced mod 2^32 first. -/
def sub32 (a b : Nat) : Nat := (a % M32 + (M32 - b % M32)) % M32

/-- Externally visible side effects of the module: calls into ProcessorInterface,
CoreTiming and Fifo. -/
inductive Event where
  | setInterrupt (asserted : Bool) : Event
  | scheduleUpdate (userdata : Nat) : Event
  | forceExceptionCheck : Event
  | runGpu : Event
  | flushGpu : Event
  | syncGpu : Event
deriving DecidableEq

/-- Decoded control register (UCPCtrlReg bit fields). -/
structure UCPCtrlReg where
  GPReadEnable : Bool
  BPEnable : Bool
  FifoOverflowIntEnable : Bool
  FifoUnderflowIntEnable : Bool
  GPLinkEnable : Bool
  BPInt : Bool
deriving DecidableEq

/-- Static configuration: `isOnThread` is SConfig bCPUThread (dual-timeline mode),
`useDeterministicGPUThread` is Fifo::UseDeterministicGPUThread(), `bWii` selects
the expanded hardware variant in GetPhysicalAddressMask. -/
structure Config where
  isOnThread : Bool
  useDeterministicGPUThread : Bool
  bWii : Bool
deriving DecidableEq

/-- The mutable state of the command-processor core: the fields of
`SCPFifoStruct fifo`, the decoded control register, the two interrupt flags,
the ProcessorInterface bus-mastering shadow registers, the queue of deferred
interrupt tasks pending at the scheduler, and the log of emitted events
(most recent first). -/
structure CPState where
  CPBase : Nat
  CPEnd : Nat
  CPHiWatermark : Nat
  CPLoWatermark : Nat
  CPReadWriteDistance : Nat
  CPWritePointer : Nat
  CPReadPointer : Nat
  CPBreakpoint : Nat
  SafeCPReadPointer : Nat
  bFF_GPLinkEnable : Bool
  bFF_GPReadEnable : Bool
  bFF_BPEnable : Bool
  bFF_BPInt : Bool
  bFF_Breakpoint : Bool
  bFF_LoWatermarkInt : Bool
  bFF_HiWatermarkInt : Bool
  bFF_LoWatermark : Bool
  bFF_HiWatermark : Bool
  ctrl : UCPCtrlReg
  interrupt_set : Bool
  interrupt_waiting : Bool
  Fifo_CPUWritePointer : Nat
  Fifo_CPUBase : Nat
  Fifo_CPUEnd : Nat
  pending : List Nat
  events : List Event
deriving DecidableEq

/-- Append one external side effect to the event log. -/
def emit (e : Event) (s : CPState) : CPState := { s with events := e :: s.events }

/-- Well-formedness: every 32-bit field holds a value below 2^32. -/
def wf (s : CPState) : Prop :=
  s.CPBase < M32 ∧ s.CPEnd < M32 ∧ s.CPHiWatermark < M32 ∧ s.CPLoWatermark < M32 ∧
  s.CPReadWriteDistance < M32 ∧ s.CPWritePointer < M32 ∧ s.CPReadPointer < M32 ∧
  s.CPBreakpoint < M32 ∧ s.SafeCPReadPointer < M32

instance (s : CPState) : Decidable (wf s) := by
  unfold wf
  infer_instance

/-- UpdateInterrupts(u64 userdata): apply the carried line value to the interrupt
sink, force an exception check, clear the waiting flag, wake the consumer. -/
def UpdateInterrupts (userdata : Nat) (s : CPState) : CPState :=
  let s :=
    if userdata ≠ 0 then
      emit (Event.setInterrupt true) { s with interrupt_set := true }
    else
      emit (Event.setInterrupt false) { s with interrupt_set := false }
  let s := emit Event.forceExceptionCheck s
  let s := { s with interrupt_waiting := false }
  emit Event.runGpu s

/-- UpdateInterruptsFromVideoBackend: schedule a deferred UpdateInterrupts task
unless the deterministic GPU thread is in use. -/
def UpdateInterruptsFromVideoBackend (c : Config) (userdata : Nat) (s : CPState) : CPState :=
  if !c.useDeterministicGPUThread then
    emit (Event.scheduleUpdate userdata) { s with pending := s.pending ++ [userdata] }
  else s

/-- Execution of the next deferred interrupt task by the scheduler
(UpdateInterrupts_Wrapper via the CPInterrupt event). -/
def runPendingTask (s : CPState) : CPState :=
  match s.pending with
  | [] => s
  | u :: rest => UpdateInterrupts u { s with pending := rest }

/-- Breakpoint section of SetCPStatusFromGPU: latch bFF_Breakpoint when the
breakpoint is enabled and the read pointer sits on it, clear it otherwise. -/
def UpdateBreakpointFlag (s : CPState) : CPState :=
  if s.bFF_BPEnable then
    if s.CPBreakpoint == s.CPReadPointer then
      { s with bFF_Breakpoint := true }
    else
      { s with bFF_Breakpoint := false }
  else
    { s with bFF_Breakpoint := false }

/-- Overflow and underflow check shared by SetCPStatusFromGPU and
SetCPStatusFromCPU. -/
def UpdateWatermarkFlags (s : CPState) : CPState :=
  { s with
    bFF_HiWatermark := decide (s.CPReadWriteDistance > s.CPHiWatermark),
    bFF_LoWatermark := decide (s.CPReadWriteDistance < s.CPLoWatermark) }

/-- Desired interrupt line value: the three alarm conditions masked by their
enable bits, all masked by GPReadEnable of the control register. -/
def desiredLine (s : CPState) : Bool :=
  ((s.bFF_Breakpoint && s.bFF_BPInt) || (s.bFF_HiWatermark && s.bFF_HiWatermarkInt) ||
      (s.bFF_LoWatermark && s.bFF_LoWatermarkInt)) &&
    s.ctrl.GPReadEnable

/-- Interrupt dispatch section of SetCPStatusFromGPU (consumer side): on a
changed desired line with no dispatch pending, defer through the scheduler in
dual-timeline mode, or apply synchronously in single-timeline mode. -/
def DispatchFromGPU (c : Config) (s : CPState) : CPState :=
  let bpInt := s.bFF_Breakpoint && s.bFF_BPInt
  let ovfInt := s.bFF_HiWatermark && s.bFF_HiWatermarkInt
  let undfInt := s.bFF_LoWatermark && s.bFF_LoWatermarkInt
  let interrupt := (bpInt || ovfInt || undfInt) && s.ctrl.GPReadEnable
  if interrupt != s.interrupt_set && !s.interrupt_waiting then
    let userdata : Nat := if interrupt then 1 else 0
    if c.isOnThread then
      if !interrupt || bpInt || undfInt || ovfInt then
        UpdateInterruptsFromVideoBackend c userdata { s with interrupt_waiting := true }
      else s
    else
      UpdateInterrupts userdata s
  else s

/-- Interrupt dispatch section of SetCPStatusFromCPU (producer side): on a
changed desired line with no dispatch pending, apply directly (the producer
owns the timeline in dual mode here), or via UpdateInterrupts in single mode. -/
def DispatchFromCPU (c : Config) (s : CPState) : CPState :=
  let bpInt := s.bFF_Breakpoint && s.bFF_BPInt
  let ovfInt := s.bFF_HiWatermark && s.bFF_HiWatermarkInt
  let undfInt := s.bFF_LoWatermark && s.bFF_LoWatermarkInt
  let interrupt := (bpInt || ovfInt || undfInt) && s.ctrl.GPReadEnable
  if interrupt != s.interrupt_set && !s.interrupt_waiting then
    let userdata : Nat := if interrupt then 1 else 0
    if c.isOnThread then
      if !interrupt || bpInt || undfInt || ovfInt then
        emit (Event.setInterrupt interrupt) { s with interrupt_set := interrupt }
      else s
    else
      UpdateInterrupts userdata s
  else s

/-- SetCPStatusFromGPU: recompute the breakpoint and watermark flags, then
re-evaluate the interrupt line from the consumer side. -/
def SetCPStatusFromGPU (c : Config) (s : CPState) : CPState :=
  DispatchFromGPU c (UpdateWatermarkFlags (UpdateBreakpointFlag s))

/-- SetCPStatusFromCPU: recompute the watermark flags, then re-evaluate the
interrupt line from the producer side. -/
def SetCPStatusFromCPU (c : Config) (s : CPState) : CPState :=
  DispatchFromCPU c (UpdateWatermarkFlags s)

/-- GatherPipeBursted: producer-side commit of one 32-byte burst. Recomputes
status first; without link enable only flushes/wakes the consumer; with link
enable advances the write pointer circularly, mirrors the bus-mastering shadow
registers when read+link are enabled, and atomically adds the burst size to the
read-write distance. -/
def GatherPipeBursted (c : Config) (s : CPState) : CPState :=
  let s := SetCPStatusFromCPU c s
  if !s.ctrl.GPLinkEnable then
    let s :=
      if c.isOnThread && !c.useDeterministicGPUThread then
        if s.Fifo_CPUEnd == s.CPEnd && s.Fifo_CPUBase == s.CPBase &&
            decide (0 < s.CPReadWriteDistance) then
          emit Event.flushGpu s
        else s
      else s
    emit Event.runGpu s
  else
    let s :=
      if s.CPWritePointer == s.CPEnd then
        { s with CPWritePointer := s.CPBase }
      else
        { s with CPWritePointer := add32 s.CPWritePointer GATHER_PIPE_SIZE }
    let s :=
      if s.ctrl.GPReadEnable && s.ctrl.GPLinkEnable then
        { s with
          Fifo_CPUWritePointer := s.CPWritePointer,
          Fifo_CPUBase := s.CPBase,
          Fifo_CPUEnd := s.CPEnd }
      else s
    let s := if s.bFF_HiWatermark then emit Event.forceExceptionCheck s else s
    let s := { s with CPReadWriteDistance := add32 s.CPReadWriteDistance GATHER_PIPE_SIZE }
    emit Event.runGpu s

/-- SetCpControlRegister: copy the decoded control-register bits into the fifo
flags; on a falling edge of GPReadEnable flush the consumer first. -/
def SetCpControlRegister (s : CPState) : CPState :=
  let s :=
    { s with
      bFF_BPInt := s.ctrl.BPInt,
      bFF_BPEnable := s.ctrl.BPEnable,
      bFF_HiWatermarkInt := s.ctrl.FifoOverflowIntEnable,
      bFF_LoWatermarkInt := s.ctrl.FifoUnderflowIntEnable,
      bFF_GPLinkEnable := s.ctrl.GPLinkEnable }
  if s.bFF_GPReadEnable && !s.ctrl.GPReadEnable then
    emit Event.flushGpu { s with bFF_GPReadEnable := s.ctrl.GPReadEnable }
  else
    { s with bFF_GPReadEnable := s.ctrl.GPReadEnable }

/-- MMIO handler for a CTRL_REGISTER write: store the decoded value, run
SetCpControlRegister, wake the consumer. -/
def WriteCtrlRegister (v : UCPCtrlReg) (s : CPState) : CPState :=
  emit Event.runGpu (SetCpControlRegister { s with ctrl := v })

/-- Initial state established by Init(): zeroed fifo, cleared control register,
both interrupt flags clear, no deferred task. -/
def Init : CPState :=
  { CPBase := 0, CPEnd := 0, CPHiWatermark := 0, CPLoWatermark := 0,
    CPReadWriteDistance := 0, CPWritePointer := 0, CPReadPointer := 0,
    CPBreakpoint := 0, SafeCPReadPointer := 0,
    bFF_GPLinkEnable := false, bFF_GPReadEnable := false, bFF_BPEnable := false,
    bFF_BPInt := false, bFF_Breakpoint := false,
    bFF_LoWatermarkInt := false, bFF_HiWatermarkInt := false,
    bFF_LoWatermark := false, bFF_HiWatermark := false,
    ctrl := ⟨false, false, false, false, false, false⟩,
    interrupt_set := false, interrupt_waiting := false,
    Fifo_CPUWritePointer := 0, Fifo_CPUBase := 0, Fifo_CPUEnd := 0,
    pending := [], events := [] }

/-- Read the low 16 bits of a 32-bit register value. -/
def ReadLow (reg : Nat) : Nat := reg % 65536

/-- Read the high 16 bits of a 32-bit register value. -/
def ReadHigh (reg : Nat) : Nat := reg / 65536 % 65536

/-- Replace the low 16 bits of a 32-bit register value. -/
def WriteLow (reg lowbits : Nat) : Nat := reg / 65536 % 65536 * 65536 + lowbits % 65536

/-- Replace the high 16 bits of a 32-bit register value. -/
def WriteHigh (reg highbits : Nat) : Nat := highbits % 65536 * 65536 + reg % 65536

/-- GetPhysicalAddressMask: upper address bits ignored by CP registers; wider on
the expanded (Wii) variant. -/
def GetPhysicalAddressMask (bWii : Bool) : Nat :=
  if bWii then 0x1fffffff else 0x03ffffff

/-- Write mask of the low half-registers: forces 32-byte alignment. -/
def WMASK_LO_ALIGN_32BIT : Nat := 0xffe0

/-- Write mask of the high half-registers: the physical address mask shifted
down 16 bits. -/
def WMASK_HI_RESTRICT (bWii : Bool) : Nat := GetPhysicalAddressMask bWii / 65536

/-- The lo/hi half-registers of the FIFO MMIO bank modelled here. -/
inductive CPReg where
  | FIFO_BASE_LO | FIFO_BASE_HI
  | FIFO_END_LO | FIFO_END_HI
  | FIFO_HI_WATERMARK_LO | FIFO_HI_WATERMARK_HI
  | FIFO_LO_WATERMARK_LO | FIFO_LO_WATERMARK_HI
  | FIFO_BP_LO | FIFO_BP_HI
  | FIFO_WRITE_POINTER_LO | FIFO_WRITE_POINTER_HI
  | FIFO_RW_DISTANCE_LO | FIFO_RW_DISTANCE_HI
  | FIFO_READ_POINTER_LO | FIFO_READ_POINTER_HI
deriving DecidableEq

/-- 16-bit MMIO write dispatch as registered in RegisterMMIO: DirectWrite with
the register's write mask, or the ComplexWrite handlers for breakpoint,
distance-high and read-pointer-high. -/
def mmioWrite (c : Config) (r : CPReg) (val : Nat) (s : CPState) : CPState :=
  match r with
  | .FIFO_BASE_LO =>
      { s with CPBase := WriteLow s.CPBase (Nat.land val WMASK_LO_ALIGN_32BIT) }
  | .FIFO_BASE_HI =>
      { s with CPBase := WriteHigh s.CPBase (Nat.land val (WMASK_HI_RESTRICT c.bWii)) }
  | .FIFO_END_LO =>
      { s with CPEnd := WriteLow s.CPEnd (Nat.land val WMASK_LO_ALIGN_32BIT) }
  | .FIFO_END_HI =>
      { s with CPEnd := WriteHigh s.CPEnd (Nat.land val (WMASK_HI_RESTRICT c.bWii)) }
  | .FIFO_HI_WATERMARK_LO =>
      { s with CPHiWatermark := WriteLow s.CPHiWatermark (Nat.land val WMASK_LO_ALIGN_32BIT) }
  | .FIFO_HI_WATERMARK_HI =>
      { s with CPHiWatermark := WriteHigh s.CPHiWatermark (Nat.land val (WMASK_HI_RESTRICT c.bWii)) }
  | .FIFO_LO_WATERMARK_LO =>
      { s with CPLoWatermark := WriteLow s.CPLoWatermark (Nat.land val WMASK_LO_ALIGN_32BIT) }
  | .FIFO_LO_WATERMARK_HI =>
      { s with CPLoWatermark := WriteHigh s.CPLoWatermark (Nat.land val (WMASK_HI_RESTRICT c.bWii)) }
  | .FIFO_BP_LO =>
      { s with CPBreakpoint := WriteLow s.CPBreakpoint (Nat.land val WMASK_LO_ALIGN_32BIT) }
  | .FIFO_BP_HI =>
      { s with CPBreakpoint := WriteHigh s.CPBreakpoint (Nat.land val (WMASK_HI_RESTRICT c.bWii)) }
  | .FIFO_WRITE_POINTER_LO =>
      { s with CPWritePointer := WriteLow s.CPWritePointer (Nat.land val WMASK_LO_ALIGN_32BIT) }
  | .FIFO_WRITE_POINTER_HI =>
      { s with CPWritePointer := WriteHigh s.CPWritePointer (Nat.land val (WMASK_HI_RESTRICT c.bWii)) }
  | .FIFO_RW_DISTANCE_LO =>
      { s with CPReadWriteDistance :=
          WriteLow s.CPReadWriteDistance (Nat.land val WMASK_LO_ALIGN_32BIT) }
  | .FIFO_RW_DISTANCE_HI =>
      emit Event.runGpu (emit Event.syncGpu
        { s with CPReadWriteDistance :=
            WriteHigh s.CPReadWriteDistance (Nat.land val (WMASK_HI_RESTRICT c.bWii)) })
  | .FIFO_READ_POINTER_LO =>
      { s with CPReadPointer := WriteLow s.CPReadPointer (Nat.land val WMASK_LO_ALIGN_32BIT) }
  | .FIFO_READ_POINTER_HI =>
      if c.isOnThread then
        let s :=
          { s with CPReadPointer := WriteHigh s.CPReadPointer (Nat.land val (WMASK_HI_RESTRICT c.bWii)) }
        { s with SafeCPReadPointer := s.CPReadPointer }
      else
        { s with CPReadPointer := WriteHigh s.CPReadPointer (Nat.land val (WMASK_HI_RESTRICT c.bWii)) }

/-- 16-bit MMIO read dispatch as registered in RegisterMMIO, including the
mode-dependent distance and read-pointer reads. -/
def mmioRead (c : Config) (r : CPReg) (s : CPState) : Nat :=
  match r with
  | .FIFO_BASE_LO => ReadLow s.CPBase
  | .FIFO_BASE_HI => ReadHigh s.CPBase
  | .FIFO_END_LO => ReadLow s.CPEnd
  | .FIFO_END_HI => ReadHigh s.CPEnd
  | .FIFO_HI_WATERMARK_LO => ReadLow s.CPHiWatermark
  | .FIFO_HI_WATERMARK_HI => ReadHigh s.CPHiWatermark
  | .FIFO_LO_WATERMARK_LO => ReadLow s.CPLoWatermark
  | .FIFO_LO_WATERMARK_HI => ReadHigh s.CPLoWatermark
  | .FIFO_BP_LO => ReadLow s.CPBreakpoint
  | .FIFO_BP_HI => ReadHigh s.CPBreakpoint
  | .FIFO_WRITE_POINTER_LO => ReadLow s.CPWritePointer
  | .FIFO_WRITE_POINTER_HI => ReadHigh s.CPWritePointer
  | .FIFO_RW_DISTANCE_LO =>
      if c.isOnThread then
        if s.SafeCPReadPointer ≤ s.CPWritePointer then
          ReadLow (sub32 s.CPWritePointer s.SafeCPReadPointer)
        else
          ReadLow (add32 (sub32 (add32 (sub32 s.CPEnd s.SafeCPReadPointer) s.CPWritePointer)
            s.CPBase) 32)
      else ReadLow s.CPReadWriteDistance
  | .FIFO_RW_DISTANCE_HI =>
      if c.isOnThread then
        if s.SafeCPReadPointer ≤ s.CPWritePointer then
          ReadHigh (sub32 s.CPWritePointer s.SafeCPReadPointer)
        else
          ReadHigh (add32 (sub32 (add32 (sub32 s.CPEnd s.SafeCPReadPointer) s.CPWritePointer)
            s.CPBase) 32)
      else ReadHigh s.CPReadWriteDistance
  | .FIFO_READ_POINTER_LO =>
      if c.isOnThread then ReadLow s.SafeCPReadPointer else ReadLow s.CPReadPointer
  | .FIFO_READ_POINTER_HI =>
      if c.isOnThread then ReadHigh s.SafeCPReadPointer else ReadHigh s.CPReadPointer

/-- Iterated gather-pipe commits. -/
def commitN (c : Config) : Nat → CPState → CPState
  | 0, s => s
  | n + 1, s => GatherPipeBursted c (commitN c n s)

/-- Cross-thread-safe distance value following the wording of the spec (section
4.1): if the write pointer has not wrapped past the published safe read pointer,
their difference, otherwise the tail plus the head plus one in-flight burst. -/
def specDistanceDual (s : CPState) : Nat :=
  if s.SafeCPReadPointer ≤ s.CPWritePointer then
    sub32 s.CPWritePointer s.SafeCPReadPointer
  else
    add32 (add32 (sub32 s.CPEnd s.SafeCPReadPointer) (sub32 s.CPWritePointer s.CPBase)) 32

/-- The 32-bit value exposed by the two distance half-registers. -/
def ReadDistance32 (c : Config) (s : CPState) : Nat :=
  mmioRead c CPReg.FIFO_RW_DISTANCE_HI s * 65536 + mmioRead c CPReg.FIFO_RW_DISTANCE_LO s

/-- SetCPStatusFromCPU only touches flags, interrupt state and the event log:
all geometry fields, the control register and the shadow registers are kept. -/
theorem setCPStatusFromCPU_frame (c : Config) (s : CPState) :
    (SetCPStatusFromCPU c s).CPBase = s.CPBase ∧
    (SetCPStatusFromCPU c s).CPEnd = s.CPEnd ∧
    (SetCPStatusFromCPU c s).CPHiWatermark = s.CPHiWatermark ∧
    (SetCPStatusFromCPU c s).CPLoWatermark = s.CPLoWatermark ∧
    (SetCPStatusFromCPU c s).CPReadWriteDistance = s.CPReadWriteDistance ∧
    (SetCPStatusFromCPU c s).CPWritePointer = s.CPWritePointer ∧
    (SetCPStatusFromCPU c s).CPReadPointer = s.CPReadPointer ∧
    (SetCPStatusFromCPU c s).CPBreakpoint = s.CPBreakpoint ∧
    (SetCPStatusFromCPU c s).SafeCPReadPointer = s.SafeCPReadPointer ∧
    (SetCPStatusFromCPU c s).ctrl = s.ctrl ∧
    (SetCPStatusFromCPU c s).Fifo_CPUWritePointer = s.Fifo_CPUWritePointer ∧
    (SetCPStatusFromCPU c s).Fifo_CPUBase = s.Fifo_CPUBase ∧
    (SetCPStatusFromCPU c s).Fifo_CPUEnd = s.Fifo_CPUEnd := by
  unfold SetCPStatusFromCPU DispatchFromCPU UpdateInterrupts UpdateWatermarkFlags emit
  dsimp only
  repeat' split
  all_goals simp

/-- C1: a commit issued while linkEnabled is true advances the write pointer
circularly (to base when it sits at end, else by one 32-byte burst) and adds
32 to the read-write distance. -/
theorem gatherPipeBursted_advances_ring (c : Config) (s : CPState)
    (h : s.ctrl.GPLinkEnable = true) :
    (GatherPipeBursted c s).CPWritePointer =
      (if s.CPWritePointer = s.CPEnd then s.CPBase
        else (s.CPWritePointer + GATHER_PIPE_SIZE) % M32) ∧
    (GatherPipeBursted c s).CPReadWriteDistance =
      (s.CPReadWriteDistance + GATHER_PIPE_SIZE) % M32 := by
  obtain ⟨hb, he, -, -, hd, hw, -, -, -, hc, -, -, -⟩ := setCPStatusFromCPU_frame c s
  unfold GatherPipeBursted
  dsimp only
  rw [hc, h]
  simp only [Bool.not_true, Bool.false_eq_true, if_false]
  rw [hw, he, hb, hd]
  split <;> split <;> split <;> simp_all [emit, add32, beq_iff_eq]

/-- Single-timeline configuration used by concrete examples. -/
def cfgSingle : Config := ⟨false, false, false⟩

/-- Dual-timeline configuration (no deterministic GPU thread) used by concrete
examples. -/
def cfgDual : Config := ⟨true, false, false⟩

/-- A concrete linked state: ring of 0x1000 bytes, read and link enabled. -/
def linkedState : CPState :=
  { Init with ctrl := ⟨true, false, false, false, true, false⟩, CPEnd := 0x1000 }

/-- Witness for C1: one commit on the concrete linked state. -/
theorem gatherPipeBursted_advances_ring_witness :
    linkedState.ctrl.GPLinkEnable = true ∧
    ((GatherPipeBursted cfgSingle linkedState).CPWritePointer =
        (if linkedState.CPWritePointer = linkedState.CPEnd then linkedState.CPBase
          else (linkedState.CPWritePointer + GATHER_PIPE_SIZE) % M32) ∧
      (GatherPipeBursted cfgSingle linkedState).CPReadWriteDistance =
        (linkedState.CPReadWriteDistance + GATHER_PIPE_SIZE) % M32) :=
  ⟨rfl, gatherPipeBursted_advances_ring cfgSingle linkedState rfl⟩

/-- Recomposing the two 16-bit halves of a 32-bit value yields the value. -/
theorem hi_lo_recompose (v : Nat) (h : v < M32) : ReadHigh v * 65536 + ReadLow v = v := by
  unfold ReadHigh ReadLow
  unfold M32 at h
  omega

/-- Wrapping subtraction stays below 2^32. -/
theorem sub32_lt (a b : Nat) : sub32 a b < M32 := by
  unfold sub32 M32
  omega

/-- Wrapping addition stays below 2^32. -/
theorem add32_lt (a b : Nat) : add32 a b < M32 := by
  unfold add32 M32
  omega

/-- The left-to-right wrapped evaluation of `end - safe + wp - base + 32` equals
the regrouped form `(end - safe) + (wp - base) + 32`. -/
theorem distance_regroup (e r w b : Nat) :
    add32 (sub32 (add32 (sub32 e r) w) b) 32 =
      add32 (add32 (sub32 e r) (sub32 w b)) 32 := by
  unfold add32 sub32 M32
  omega

/-- C2: a read of the read-write-distance register returns the cross-thread-safe
computation from the published safe read pointer in dual-timeline mode, and the
live stored distance field in single-timeline mode. -/
theorem distance_register_read_mode (c : Config) (s : CPState) (hwf : wf s) :
    (c.isOnThread = true → ReadDistance32 c s = specDistanceDual s) ∧
    (c.isOnThread = false → ReadDistance32 c s = s.CPReadWriteDistance) := by
  obtain ⟨-, -, -, -, hd, -, -, -, -⟩ := hwf
  constructor
  · intro h
    unfold ReadDistance32 mmioRead specDistanceDual
    rw [h]
    dsimp only
    by_cases hle : s.SafeCPReadPointer ≤ s.CPWritePointer
    · simp only [hle, if_true, if_pos]
      exact hi_lo_recompose _ (sub32_lt _ _)
    · simp only [hle, if_true, if_false, if_neg, not_false_iff]
      rw [hi_lo_recompose _ (add32_lt _ _)]
      exact distance_regroup _ _ _ _
  · intro h
    unfold ReadDistance32 mmioRead
    rw [h]
    dsimp only
    exact hi_lo_recompose _ hd

/-- Witness for C2 at the initial state in dual-timeline mode. -/
theorem distance_register_read_mode_witness :
    wf Init ∧
    ((cfgDual.isOnThread = true → ReadDistance32 cfgDual Init = specDistanceDual Init) ∧
      (cfgDual.isOnThread = false → ReadDistance32 cfgDual Init = Init.CPReadWriteDistance)) :=
  ⟨by decide, distance_register_read_mode cfgDual Init (by decide)⟩

/-- Field characterization of SetCPStatusFromGPU: geometry is preserved, the
watermark flags become the comparisons of the (unchanged) distance with the
watermarks, the breakpoint flag follows UpdateBreakpointFlag, and the enable
bits and control register are preserved. -/
theorem setCPStatusFromGPU_fields (c : Config) (s : CPState) :
    (SetCPStatusFromGPU c s).CPReadWriteDistance = s.CPReadWriteDistance ∧
    (SetCPStatusFromGPU c s).CPHiWatermark = s.CPHiWatermark ∧
    (SetCPStatusFromGPU c s).CPLoWatermark = s.CPLoWatermark ∧
    (SetCPStatusFromGPU c s).bFF_HiWatermark = decide (s.CPHiWatermark < s.CPReadWriteDistance) ∧
    (SetCPStatusFromGPU c s).bFF_LoWatermark = decide (s.CPReadWriteDistance < s.CPLoWatermark) ∧
    (SetCPStatusFromGPU c s).bFF_Breakpoint = (UpdateBreakpointFlag s).bFF_Breakpoint ∧
    (SetCPStatusFromGPU c s).bFF_BPInt = s.bFF_BPInt ∧
    (SetCPStatusFromGPU c s).bFF_HiWatermarkInt = s.bFF_HiWatermarkInt ∧
    (SetCPStatusFromGPU c s).bFF_LoWatermarkInt = s.bFF_LoWatermarkInt ∧
    (SetCPStatusFromGPU c s).ctrl = s.ctrl := by
  unfold SetCPStatusFromGPU DispatchFromGPU UpdateInterruptsFromVideoBackend UpdateInterrupts
    UpdateWatermarkFlags UpdateBreakpointFlag emit
  dsimp only
  repeat' split
  all_goals simp_all

/-- Field characterization of SetCPStatusFromCPU: like the GPU variant but the
breakpoint flag is left untouched. -/
theorem setCPStatusFromCPU_fields (c : Config) (s : CPState) :
    (SetCPStatusFromCPU c s).CPReadWriteDistance = s.CPReadWriteDistance ∧
    (SetCPStatusFromCPU c s).CPHiWatermark = s.CPHiWatermark ∧
    (SetCPStatusFromCPU c s).CPLoWatermark = s.CPLoWatermark ∧
    (SetCPStatusFromCPU c s).bFF_HiWatermark = decide (s.CPHiWatermark < s.CPReadWriteDistance) ∧
    (SetCPStatusFromCPU c s).bFF_LoWatermark = decide (s.CPReadWriteDistance < s.CPLoWatermark) ∧
    (SetCPStatusFromCPU c s).bFF_Breakpoint = s.bFF_Breakpoint ∧
    (SetCPStatusFromCPU c s).bFF_BPInt = s.bFF_BPInt ∧
    (SetCPStatusFromCPU c s).bFF_HiWatermarkInt = s.bFF_HiWatermarkInt ∧
    (SetCPStatusFromCPU c s).bFF_LoWatermarkInt = s.bFF_LoWatermarkInt ∧
    (SetCPStatusFromCPU c s).ctrl = s.ctrl := by
  unfold SetCPStatusFromCPU DispatchFromCPU UpdateInterrupts UpdateWatermarkFlags emit
  dsimp only
  repeat' split
  all_goals simp_all

/-- C5: after either flag recomputation, aboveHiWatermark holds iff distance
exceeds the high watermark, belowLoWatermark holds iff distance is below the
low watermark, and both are clear exactly when distance lies in the closed
band between the watermarks. -/
theorem watermark_flags_correct (c : Config) (s : CPState) :
    (((SetCPStatusFromGPU c s).bFF_HiWatermark = true ↔
        (SetCPStatusFromGPU c s).CPHiWatermark < (SetCPStatusFromGPU c s).CPReadWriteDistance) ∧
      ((SetCPStatusFromGPU c s).bFF_LoWatermark = true ↔
        (SetCPStatusFromGPU c s).CPReadWriteDistance < (SetCPStatusFromGPU c s).CPLoWatermark) ∧
      (((SetCPStatusFromGPU c s).bFF_HiWatermark = false ∧
          (SetCPStatusFromGPU c s).bFF_LoWatermark = false) ↔
        ((SetCPStatusFromGPU c s).CPLoWatermark ≤ (SetCPStatusFromGPU c s).CPReadWriteDistance ∧
          (SetCPStatusFromGPU c s).CPReadWriteDistance ≤ (SetCPStatusFromGPU c s).CPHiWatermark))) ∧
    (((SetCPStatusFromCPU c s).bFF_HiWatermark = true ↔
        (SetCPStatusFromCPU c s).CPHiWatermark < (SetCPStatusFromCPU c s).CPReadWriteDistance) ∧
      ((SetCPStatusFromCPU c s).bFF_LoWatermark = true ↔
        (SetCPStatusFromCPU c s).CPReadWriteDistance < (SetCPStatusFromCPU c s).CPLoWatermark) ∧
      (((SetCPStatusFromCPU c s).bFF_HiWatermark = false ∧
          (SetCPStatusFromCPU c s).bFF_LoWatermark = false) ↔
        ((SetCPStatusFromCPU c s).CPLoWatermark ≤ (SetCPStatusFromCPU c s).CPReadWriteDistance ∧
          (SetCPStatusFromCPU c s).CPReadWriteDistance ≤ (SetCPStatusFromCPU c s).CPHiWatermark))) := by
  obtain ⟨hd, hh, hl, hhi, hlo, -, -, -, -, -⟩ := setCPStatusFromGPU_fields c s
  obtain ⟨hd2, hh2, hl2, hhi2, hlo2, -, -, -, -, -⟩ := setCPStatusFromCPU_fields c s
  simp only [hd, hh, hl, hhi, hlo, hd2, hh2, hl2, hhi2, hlo2, decide_eq_true_eq,
    decide_eq_false_iff_not, true_and, and_true]
  constructor <;> omega

/-- C8: writing 0xFFFF to each lo/hi half-register of base, end, hi-watermark,
lo-watermark, breakpoint and write-pointer and reading the half back yields
exactly the documented mask: 0xFFE0 for the low halves, and the active
address-width mask (0x03FF base variant, 0x1FFF expanded variant) for the
high halves. -/
theorem mask_fidelity (c : Config) (s : CPState) :
    mmioRead c .FIFO_BASE_LO (mmioWrite c .FIFO_BASE_LO 0xFFFF s) = 0xFFE0 ∧
    mmioRead c .FIFO_BASE_HI (mmioWrite c .FIFO_BASE_HI 0xFFFF s) =
      (if c.bWii then 0x1FFF else 0x03FF) ∧
    mmioRead c .FIFO_END_LO (mmioWrite c .FIFO_END_LO 0xFFFF s) = 0xFFE0 ∧
    mmioRead c .FIFO_END_HI (mmioWrite c .FIFO_END_HI 0xFFFF s) =
      (if c.bWii then 0x1FFF else 0x03FF) ∧
    mmioRead c .FIFO_HI_WATERMARK_LO (mmioWrite c .FIFO_HI_WATERMARK_LO 0xFFFF s) = 0xFFE0 ∧
    mmioRead c .FIFO_HI_WATERMARK_HI (mmioWrite c .FIFO_HI_WATERMARK_HI 0xFFFF s) =
      (if c.bWii then 0x1FFF else 0x03FF) ∧
    mmioRead c .FIFO_LO_WATERMARK_LO (mmioWrite c .FIFO_LO_WATERMARK_LO 0xFFFF s) = 0xFFE0 ∧
    mmioRead c .FIFO_LO_WATERMARK_HI (mmioWrite c .FIFO_LO_WATERMARK_HI 0xFFFF s) =
      (if c.bWii then 0x1FFF else 0x03FF) ∧
    mmioRead c .FIFO_BP_LO (mmioWrite c .FIFO_BP_LO 0xFFFF s) = 0xFFE0 ∧
    mmioRead c .FIFO_BP_HI (mmioWrite c .FIFO_BP_HI 0xFFFF s) =
      (if c.bWii then 0x1FFF else 0x03FF) ∧
    mmioRead c .FIFO_WRITE_POINTER_LO (mmioWrite c .FIFO_WRITE_POINTER_LO 0xFFFF s) = 0xFFE0 ∧
    mmioRead c .FIFO_WRITE_POINTER_HI (mmioWrite c .FIFO_WRITE_POINTER_HI 0xFFFF s) =
      (if c.bWii then 0x1FFF else 0x03FF) := by
  have hlo : Nat.land 0xFFFF WMASK_LO_ALIGN_32BIT = 0xFFE0 := by decide
  have hhiG : Nat.land 0xFFFF (WMASK_HI_RESTRICT false) = 0x03FF := by decide
  have hhiW : Nat.land 0xFFFF (WMASK_HI_RESTRICT true) = 0x1FFF := by decide
  cases hb : c.bWii
  all_goals refine ⟨?_, ?_, ?_, ?_, ?_, ?_, ?_, ?_, ?_, ?_, ?_, ?_⟩
  all_goals simp only [mmioWrite, mmioRead, hb, hlo, hhiG, hhiW, WriteLow, WriteHigh,
    ReadLow, ReadHigh, if_true, if_false, Bool.false_eq_true, ite_true, ite_false]
  all_goals omega

/-- Scenario-A start state of C9: ring base 0 and end 0x1000, link enabled,
write pointer and distance zero. -/
def scenarioA : CPState :=
  { Init with ctrl := ⟨false, false, false, false, true, false⟩, CPEnd := 0x1000 }

/-- A linked commit keeps the ring bounds and the control register. -/
theorem gatherPipeBursted_keeps_geometry (c : Config) (s : CPState) :
    (GatherPipeBursted c s).CPBase = s.CPBase ∧
    (GatherPipeBursted c s).CPEnd = s.CPEnd ∧
    (GatherPipeBursted c s).ctrl = s.ctrl := by
  obtain ⟨hb, he, -, -, -, -, -, -, -, hc, -, -, -⟩ := setCPStatusFromCPU_frame c s
  unfold GatherPipeBursted
  dsimp only
  repeat' split
  all_goals simp_all [emit]

/-- Under the scenario-A geometry, after n ≤ 128 commits the write pointer and
the distance both equal 32·n and the geometry fields are untouched. -/
theorem scenarioA_progress :
    ∀ n, n ≤ 128 →
      (commitN cfgSingle n scenarioA).CPWritePointer = 32 * n ∧
      (commitN cfgSingle n scenarioA).CPReadWriteDistance = 32 * n ∧
      (commitN cfgSingle n scenarioA).CPBase = 0 ∧
      (commitN cfgSingle n scenarioA).CPEnd = 0x1000 ∧
      (commitN cfgSingle n scenarioA).ctrl.GPLinkEnable = true := by
  intro n
  induction n with
  | zero => exact fun _ => ⟨rfl, rfl, rfl, rfl, rfl⟩
  | succ k ih =>
    intro hn
    obtain ⟨hwp, hdist, hbase, hend, hlink⟩ := ih (Nat.le_of_succ_le hn)
    obtain ⟨hw, hd⟩ :=
      gatherPipeBursted_advances_ring cfgSingle (commitN cfgSingle k scenarioA) hlink
    obtain ⟨hb, he, hc⟩ :=
      gatherPipeBursted_keeps_geometry cfgSingle (commitN cfgSingle k scenarioA)
    simp only [commitN]
    rw [hw, hd, hb, he, hc, hwp, hdist, hbase, hend]
    have hk : k ≤ 127 := by omega
    have hne : ¬(32 * k = 0x1000) := by omega
    rw [if_neg hne]
    unfold GATHER_PIPE_SIZE M32
    refine ⟨by omega, by omega, rfl, rfl, hlink⟩

/-- C9 as stated is false: after exactly 128 commits the write pointer is not 0
(it sits at end, which only wraps to base at the start of the next commit). -/
theorem scenarioA_writePointer_not_zero :
    (commitN cfgSingle 128 scenarioA).CPWritePointer ≠ 0 := by
  obtain ⟨hwp, -, -, -, -⟩ := scenarioA_progress 128 (Nat.le_refl _)
  rw [hwp]
  norm_num

/-- C9, amended: after 128 commits on scenario A the write pointer equals end
(0x1000, wrapping to base only at the start of the next commit) and the
distance equals 0x1000 (the ring is exactly full, the wrap is not credited as
empty). -/
theorem scenarioA_final_state :
    (commitN cfgSingle 128 scenarioA).CPWritePointer = 0x1000 ∧
    (commitN cfgSingle 128 scenarioA).CPReadWriteDistance = 0x1000 := by
  obtain ⟨hwp, hdist, -, -, -⟩ := scenarioA_progress 128 (Nat.le_refl _)
  rw [hwp, hdist]
  norm_num

/-- SetCPStatusFromCPU only prepends to the event log. -/
theorem setCPStatusFromCPU_events (c : Config) (s : CPState) :
    ∃ l, (SetCPStatusFromCPU c s).events = l ++ s.events := by
  unfold SetCPStatusFromCPU DispatchFromCPU UpdateInterrupts UpdateWatermarkFlags emit
  dsimp only
  repeat' split
  all_goals first
    | exact ⟨[], rfl⟩
    | exact ⟨[_], rfl⟩
    | exact ⟨[_, _, _], rfl⟩

/-- C10: a commit issued while linkEnabled is false leaves the pointers, the
distance, the ring bounds, the breakpoint and the bus-mastering shadow
registers unchanged, and issues a consumer wake hint. -/
theorem unlinked_commit_frame (c : Config) (s : CPState)
    (h : s.ctrl.GPLinkEnable = false) :
    (GatherPipeBursted c s).CPWritePointer = s.CPWritePointer ∧
    (GatherPipeBursted c s).CPReadPointer = s.CPReadPointer ∧
    (GatherPipeBursted c s).SafeCPReadPointer = s.SafeCPReadPointer ∧
    (GatherPipeBursted c s).CPReadWriteDistance = s.CPReadWriteDistance ∧
    (GatherPipeBursted c s).CPBase = s.CPBase ∧
    (GatherPipeBursted c s).CPEnd = s.CPEnd ∧
    (GatherPipeBursted c s).CPBreakpoint = s.CPBreakpoint ∧
    (GatherPipeBursted c s).Fifo_CPUWritePointer = s.Fifo_CPUWritePointer ∧
    (GatherPipeBursted c s).Fifo_CPUBase = s.Fifo_CPUBase ∧
    (GatherPipeBursted c s).Fifo_CPUEnd = s.Fifo_CPUEnd ∧
    ∃ l, (GatherPipeBursted c s).events = l ++ s.events ∧ Event.runGpu ∈ l := by
  obtain ⟨hb, he, -, -, hd, hw, hr, hbp, hs, hc, hfw, hfb, hfe⟩ := setCPStatusFromCPU_frame c s
  obtain ⟨l, hl⟩ := setCPStatusFromCPU_events c s
  unfold GatherPipeBursted
  dsimp only
  rw [hc, h]
  simp only [Bool.not_false, eq_self_iff_true, if_true]
  repeat' split
  all_goals refine ⟨by simp [emit, hw], by simp [emit, hr], by simp [emit, hs],
    by simp [emit, hd], by simp [emit, hb], by simp [emit, he], by simp [emit, hbp],
    by simp [emit, hfw], by simp [emit, hfb], by simp [emit, hfe], ?_⟩
  · exact ⟨Event.runGpu :: Event.flushGpu :: l, by simp [emit, hl], by simp⟩
  · exact ⟨Event.runGpu :: l, by simp [emit, hl], by simp⟩
  · exact ⟨Event.runGpu :: l, by simp [emit, hl], by simp⟩

/-- Witness for C10: one unlinked commit at the initial state. -/
theorem unlinked_commit_frame_witness :
    Init.ctrl.GPLinkEnable = false ∧
    ((GatherPipeBursted cfgSingle Init).CPWritePointer = Init.CPWritePointer ∧
      (GatherPipeBursted cfgSingle Init).CPReadPointer = Init.CPReadPointer ∧
      (GatherPipeBursted cfgSingle Init).SafeCPReadPointer = Init.SafeCPReadPointer ∧
      (GatherPipeBursted cfgSingle Init).CPReadWriteDistance = Init.CPReadWriteDistance ∧
      (GatherPipeBursted cfgSingle Init).CPBase = Init.CPBase ∧
      (GatherPipeBursted cfgSingle Init).CPEnd = Init.CPEnd ∧
      (GatherPipeBursted cfgSingle Init).CPBreakpoint = Init.CPBreakpoint ∧
      (GatherPipeBursted cfgSingle Init).Fifo_CPUWritePointer = Init.Fifo_CPUWritePointer ∧
      (GatherPipeBursted cfgSingle Init).Fifo_CPUBase = Init.Fifo_CPUBase ∧
      (GatherPipeBursted cfgSingle Init).Fifo_CPUEnd = Init.Fifo_CPUEnd ∧
      ∃ l, (GatherPipeBursted cfgSingle Init).events = l ++ Init.events ∧ Event.runGpu ∈ l) :=
  ⟨rfl, unlinked_commit_frame cfgSingle Init rfl⟩

/-- The deferral guard of the dispatch branches is a tautology: when the
desired line is HIGH one of the three edge conditions holds, and when it is
LOW the negated-interrupt disjunct holds. -/
theorem dispatch_guard_true :
    ∀ (a b d r : Bool), (!((a || b || d) && r) || a || d || b) = true := by decide

/-- After a consumer-side dispatch from a state with no pending task, running
the (at most one) scheduled task leaves the interrupt line at the desired
value, and at most one task was scheduled. -/
theorem dispatchFromGPU_settles (c : Config) (t : CPState)
    (hdet : c.useDeterministicGPUThread = false)
    (hwait : t.interrupt_waiting = false) (hpend : t.pending = []) :
    (runPendingTask (DispatchFromGPU c t)).interrupt_set = desiredLine t ∧
    (DispatchFromGPU c t).pending.length ≤ 1 := by
  unfold DispatchFromGPU UpdateInterruptsFromVideoBackend UpdateInterrupts runPendingTask
    desiredLine emit
  dsimp only
  cases ha : (t.bFF_Breakpoint && t.bFF_BPInt) <;>
    cases hb : (t.bFF_HiWatermark && t.bFF_HiWatermarkInt) <;>
      cases hd : (t.bFF_LoWatermark && t.bFF_LoWatermarkInt) <;>
        cases hr : t.ctrl.GPReadEnable <;>
          cases hset : t.interrupt_set <;>
            cases hot : c.isOnThread <;>
              simp_all [UpdateInterrupts, emit]

/-- The flag recomputations do not touch the interrupt dispatch state. -/
theorem recompute_interrupt_frame (s : CPState) :
    (UpdateWatermarkFlags (UpdateBreakpointFlag s)).interrupt_set = s.interrupt_set ∧
    (UpdateWatermarkFlags (UpdateBreakpointFlag s)).interrupt_waiting = s.interrupt_waiting ∧
    (UpdateWatermarkFlags (UpdateBreakpointFlag s)).pending = s.pending ∧
    (UpdateWatermarkFlags s).interrupt_set = s.interrupt_set ∧
    (UpdateWatermarkFlags s).interrupt_waiting = s.interrupt_waiting ∧
    (UpdateWatermarkFlags s).pending = s.pending := by
  unfold UpdateWatermarkFlags UpdateBreakpointFlag
  repeat' split
  all_goals simp

/-- runPendingTask only touches the interrupt line, the waiting flag, the task
queue and the event log. -/
theorem runPendingTask_flags (s : CPState) :
    (runPendingTask s).bFF_Breakpoint = s.bFF_Breakpoint ∧
    (runPendingTask s).bFF_BPInt = s.bFF_BPInt ∧
    (runPendingTask s).bFF_HiWatermark = s.bFF_HiWatermark ∧
    (runPendingTask s).bFF_HiWatermarkInt = s.bFF_HiWatermarkInt ∧
    (runPendingTask s).bFF_LoWatermark = s.bFF_LoWatermark ∧
    (runPendingTask s).bFF_LoWatermarkInt = s.bFF_LoWatermarkInt ∧
    (runPendingTask s).ctrl = s.ctrl := by
  unfold runPendingTask UpdateInterrupts emit
  repeat' split
  all_goals simp

/-- The consumer-side dispatch does not change the fields feeding the
desired-line computation. -/
theorem dispatchFromGPU_flags (c : Config) (s : CPState) :
    (DispatchFromGPU c s).bFF_Breakpoint = s.bFF_Breakpoint ∧
    (DispatchFromGPU c s).bFF_BPInt = s.bFF_BPInt ∧
    (DispatchFromGPU c s).bFF_HiWatermark = s.bFF_HiWatermark ∧
    (DispatchFromGPU c s).bFF_HiWatermarkInt = s.bFF_HiWatermarkInt ∧
    (DispatchFromGPU c s).bFF_LoWatermark = s.bFF_LoWatermark ∧
    (DispatchFromGPU c s).bFF_LoWatermarkInt = s.bFF_LoWatermarkInt ∧
    (DispatchFromGPU c s).ctrl = s.ctrl := by
  unfold DispatchFromGPU UpdateInterruptsFromVideoBackend UpdateInterrupts emit
  dsimp only
  repeat' split
  all_goals simp

/-- The desired line only depends on the six flag fields and the control
register. -/
theorem desiredLine_congr {s t : CPState}
    (h1 : t.bFF_Breakpoint = s.bFF_Breakpoint) (h2 : t.bFF_BPInt = s.bFF_BPInt)
    (h3 : t.bFF_HiWatermark = s.bFF_HiWatermark)
    (h4 : t.bFF_HiWatermarkInt = s.bFF_HiWatermarkInt)
    (h5 : t.bFF_LoWatermark = s.bFF_LoWatermark)
    (h6 : t.bFF_LoWatermarkInt = s.bFF_LoWatermarkInt)
    (h7 : t.ctrl = s.ctrl) :
    desiredLine t = desiredLine s := by
  unfold desiredLine
  rw [h1, h2, h3, h4, h5, h6, h7]

/-- Settling property of a consumer-side recomputation from a state with no
pending dispatch: the line reaches the desired value and at most one task was
queued. -/
theorem statusFromGPU_settles (c : Config) (s : CPState)
    (hdet : c.useDeterministicGPUThread = false)
    (hwait : s.interrupt_waiting = false) (hpend : s.pending = []) :
    (runPendingTask (SetCPStatusFromGPU c s)).interrupt_set =
      desiredLine (runPendingTask (SetCPStatusFromGPU c s)) ∧
    (SetCPStatusFromGPU c s).pending.length ≤ 1 := by
  unfold SetCPStatusFromGPU
  obtain ⟨-, hw1, hp1, -, -, -⟩ := recompute_interrupt_frame s
  obtain ⟨hsettle, hlen⟩ := dispatchFromGPU_settles c (UpdateWatermarkFlags (UpdateBreakpointFlag s))
    hdet (hw1.trans hwait) (hp1.trans hpend)
  obtain ⟨g1, g2, g3, g4, g5, g6, g7⟩ :=
    dispatchFromGPU_flags c (UpdateWatermarkFlags (UpdateBreakpointFlag s))
  obtain ⟨r1, r2, r3, r4, r5, r6, r7⟩ :=
    runPendingTask_flags (DispatchFromGPU c (UpdateWatermarkFlags (UpdateBreakpointFlag s)))
  refine ⟨?_, hlen⟩
  rw [hsettle]
  exact (desiredLine_congr (r1.trans g1) (r2.trans g2) (r3.trans g3) (r4.trans g4)
    (r5.trans g5) (r6.trans g6) (r7.trans g7)).symm

/-- C3: starting from a state with no dispatch pending, after a status
recomputation and the execution of the (at most one) deferred task, the
asserted interrupt line equals the desired line computed from the settled
flags and enable bits. -/
theorem interrupt_line_settles_to_desired (c : Config) (s : CPState)
    (hdet : c.useDeterministicGPUThread = false)
    (hwait : s.interrupt_waiting = false) (hpend : s.pending = []) :
    (runPendingTask (SetCPStatusFromGPU c s)).interrupt_set =
      desiredLine (runPendingTask (SetCPStatusFromGPU c s)) :=
  (statusFromGPU_settles c s hdet hwait hpend).1

/-- Witness for C3 at the initial state in dual-timeline mode. -/
theorem interrupt_line_settles_to_desired_witness :
    cfgDual.useDeterministicGPUThread = false ∧ Init.interrupt_waiting = false ∧
    Init.pending = [] ∧
    (runPendingTask (SetCPStatusFromGPU cfgDual Init)).interrupt_set =
      desiredLine (runPendingTask (SetCPStatusFromGPU cfgDual Init)) :=
  ⟨rfl, rfl, rfl, interrupt_line_settles_to_desired cfgDual Init rfl rfl rfl⟩

/-- One operation of the command-processor core: a producer commit, a status
recomputation from either side, a control-register or MMIO register write, or
the execution of the next deferred scheduler task. -/
inductive Step (c : Config) : CPState → CPState → Prop where
  | gather (s : CPState) : Step c s (GatherPipeBursted c s)
  | statusGPU (s : CPState) : Step c s (SetCPStatusFromGPU c s)
  | statusCPU (s : CPState) : Step c s (SetCPStatusFromCPU c s)
  | ctrlWrite (v : UCPCtrlReg) (s : CPState) : Step c s (WriteCtrlRegister v s)
  | regWrite (r : CPReg) (v : Nat) (s : CPState) : Step c s (mmioWrite c r v s)
  | task (s : CPState) : Step c s (runPendingTask s)

/-- States reachable from Init through the operations of the core. -/
inductive Reachable (c : Config) : CPState → Prop where
  | init : Reachable c Init
  | step {s t : CPState} : Reachable c s → Step c s t → Reachable c t

/-- MMIO register writes do not touch the interrupt dispatch state. -/
theorem mmioWrite_interrupt_frame (c : Config) (r : CPReg) (v : Nat) (s : CPState) :
    (mmioWrite c r v s).pending = s.pending ∧
    (mmioWrite c r v s).interrupt_waiting = s.interrupt_waiting := by
  cases r
  case FIFO_READ_POINTER_HI =>
    unfold mmioWrite
    by_cases hoc : c.isOnThread = true <;> simp [hoc]
  all_goals exact ⟨rfl, rfl⟩

/-- A control-register write does not touch the interrupt dispatch state. -/
theorem writeCtrl_interrupt_frame (v : UCPCtrlReg) (s : CPState) :
    (WriteCtrlRegister v s).pending = s.pending ∧
    (WriteCtrlRegister v s).interrupt_waiting = s.interrupt_waiting ∧
    (WriteCtrlRegister v s).interrupt_set = s.interrupt_set := by
  unfold WriteCtrlRegister SetCpControlRegister emit
  dsimp only
  repeat' split
  all_goals simp

/-- In dual-timeline mode the producer-side dispatch never touches the waiting
flag or the task queue. -/
theorem dispatchFromCPU_onthread_frame (c : Config) (s : CPState)
    (hot : c.isOnThread = true) :
    (DispatchFromCPU c s).pending = s.pending ∧
    (DispatchFromCPU c s).interrupt_waiting = s.interrupt_waiting := by
  unfold DispatchFromCPU UpdateInterrupts emit
  dsimp only
  repeat' split
  all_goals simp_all

/-- In dual-timeline mode the producer-side status recomputation never touches
the waiting flag or the task queue. -/
theorem setCPStatusFromCPU_onthread_frame (c : Config) (s : CPState)
    (hot : c.isOnThread = true) :
    (SetCPStatusFromCPU c s).pending = s.pending ∧
    (SetCPStatusFromCPU c s).interrupt_waiting = s.interrupt_waiting := by
  unfold SetCPStatusFromCPU
  obtain ⟨hp, hw⟩ := dispatchFromCPU_onthread_frame c (UpdateWatermarkFlags s) hot
  obtain ⟨-, -, -, -, hw2, hp2⟩ := recompute_interrupt_frame s
  exact ⟨hp.trans hp2, hw.trans hw2⟩

/-- In dual-timeline mode a commit never touches the waiting flag or the task
queue. -/
theorem gather_interrupt_frame (c : Config) (s : CPState) (hot : c.isOnThread = true) :
    (GatherPipeBursted c s).pending = s.pending ∧
    (GatherPipeBursted c s).interrupt_waiting = s.interrupt_waiting := by
  obtain ⟨hp, hw⟩ := setCPStatusFromCPU_onthread_frame c s hot
  unfold GatherPipeBursted
  dsimp only
  repeat' split
  all_goals simp_all [emit]

/-- The consumer-side dispatch preserves the one-pending invariant. -/
theorem dispatchFromGPU_inv (c : Config) (t : CPState)
    (hdet : c.useDeterministicGPUThread = false)
    (hinv : t.pending.length ≤ 1 ∧ (t.interrupt_waiting = true ↔ t.pending.length = 1)) :
    (DispatchFromGPU c t).pending.length ≤ 1 ∧
    ((DispatchFromGPU c t).interrupt_waiting = true ↔
      (DispatchFromGPU c t).pending.length = 1) := by
  unfold DispatchFromGPU UpdateInterruptsFromVideoBackend UpdateInterrupts emit
  dsimp only
  repeat' split
  all_goals simp_all [hdet]
  all_goals rw [← List.length_eq_zero]
  all_goals omega

/-- The consumer-side status recomputation preserves the one-pending
invariant. -/
theorem setCPStatusFromGPU_inv (c : Config) (s : CPState)
    (hdet : c.useDeterministicGPUThread = false)
    (hinv : s.pending.length ≤ 1 ∧ (s.interrupt_waiting = true ↔ s.pending.length = 1)) :
    (SetCPStatusFromGPU c s).pending.length ≤ 1 ∧
    ((SetCPStatusFromGPU c s).interrupt_waiting = true ↔
      (SetCPStatusFromGPU c s).pending.length = 1) := by
  unfold SetCPStatusFromGPU
  obtain ⟨-, hw, hp, -, -, -⟩ := recompute_interrupt_frame s
  refine dispatchFromGPU_inv c _ hdet ?_
  rw [hw, hp]
  exact hinv

/-- Executing the next deferred task preserves the one-pending invariant. -/
theorem runPendingTask_inv (s : CPState)
    (hinv : s.pending.length ≤ 1 ∧ (s.interrupt_waiting = true ↔ s.pending.length = 1)) :
    (runPendingTask s).pending.length ≤ 1 ∧
    ((runPendingTask s).interrupt_waiting = true ↔
      (runPendingTask s).pending.length = 1) := by
  unfold runPendingTask UpdateInterrupts emit
  repeat' split
  all_goals simp_all

/-- C4: in dual-timeline mode, every reachable state has at most one deferred
dispatch pending, and the waiting flag is set exactly when one deferred task is
queued at the scheduler (so no second dispatch is ever scheduled while one is
pending, and the flag clears only when the task runs). -/
theorem at_most_one_pending_dispatch (c : Config) (s : CPState)
    (hot : c.isOnThread = true) (hdet : c.useDeterministicGPUThread = false)
    (hreach : Reachable c s) :
    s.pending.length ≤ 1 ∧ (s.interrupt_waiting = true ↔ s.pending.length = 1) := by
  induction hreach with
  | init => exact ⟨by decide, by decide⟩
  | step hr hst ih =>
    cases hst with
    | gather =>
      obtain ⟨hp, hw⟩ := gather_interrupt_frame c _ hot
      rw [hp, hw]
      exact ih
    | statusGPU =>
      exact setCPStatusFromGPU_inv c _ hdet ih
    | statusCPU =>
      obtain ⟨hp, hw⟩ := setCPStatusFromCPU_onthread_frame c _ hot
      rw [hp, hw]
      exact ih
    | ctrlWrite v =>
      obtain ⟨hp, hw, -⟩ := writeCtrl_interrupt_frame v _
      rw [hp, hw]
      exact ih
    | regWrite r v =>
      obtain ⟨hp, hw⟩ := mmioWrite_interrupt_frame c r v _
      rw [hp, hw]
      exact ih
    | task =>
      exact runPendingTask_inv _ ih

/-- Witness for C4: the initial dual-timeline state is reachable and satisfies
the invariant. -/
theorem at_most_one_pending_dispatch_witness :
    cfgDual.isOnThread = true ∧ cfgDual.useDeterministicGPUThread = false ∧
    Reachable cfgDual Init ∧
    (Init.pending.length ≤ 1 ∧ (Init.interrupt_waiting = true ↔ Init.pending.length = 1)) :=
  ⟨rfl, rfl, Reachable.init,
    at_most_one_pending_dispatch cfgDual Init rfl rfl Reachable.init⟩

/-- A dual-timeline state with the line asserted but no alarm active: distance
strictly between the watermarks, breakpoint disabled, read enabled. -/
def staleAssertState : CPState :=
  { Init with
    CPHiWatermark := 0x800, CPLoWatermark := 0x100, CPReadWriteDistance := 0x200,
    ctrl := ⟨true, false, false, false, false, false⟩,
    interrupt_set := true }

/-- C7 as stated is false: a plain de-assert with no active edge condition is
still deferred through the scheduler in dual-timeline mode. -/
theorem deassert_is_deferred :
    (SetCPStatusFromGPU cfgDual staleAssertState).interrupt_waiting = true ∧
    (SetCPStatusFromGPU cfgDual staleAssertState).pending = [0] ∧
    Event.scheduleUpdate 0 ∈ (SetCPStatusFromGPU cfgDual staleAssertState).events := by
  refine ⟨rfl, rfl, ?_⟩
  decide

/-- The consumer-side dispatch defers every changed transition in dual-timeline
mode: when the desired line differs from the asserted one and no dispatch is
pending, the waiting flag is set and exactly one task carrying the desired
value is queued (the edge-condition guard in the code is vacuously true). -/
theorem dispatchFromGPU_defers (c : Config) (t : CPState)
    (hot : c.isOnThread = true) (hdet : c.useDeterministicGPUThread = false)
    (hwait : t.interrupt_waiting = false) (hch : desiredLine t ≠ t.interrupt_set) :
    (DispatchFromGPU c t).interrupt_waiting = true ∧
    (DispatchFromGPU c t).pending = t.pending ++ [if desiredLine t then 1 else 0] ∧
    Event.scheduleUpdate (if desiredLine t then 1 else 0) ∈ (DispatchFromGPU c t).events := by
  unfold desiredLine at hch
  unfold DispatchFromGPU UpdateInterruptsFromVideoBackend desiredLine emit
  dsimp only
  cases ha : (t.bFF_Breakpoint && t.bFF_BPInt) <;>
    cases hb : (t.bFF_HiWatermark && t.bFF_HiWatermarkInt) <;>
      cases hd : (t.bFF_LoWatermark && t.bFF_LoWatermarkInt) <;>
        cases hr : t.ctrl.GPReadEnable <;>
          cases hset : t.interrupt_set <;>
            simp_all

/-- C7, amended: in dual-timeline mode every transition whose desired line
(computed from the recomputed flags) differs from the asserted line while no
dispatch is pending is deferred through the scheduler — including a plain
de-assert with no active alarm, since the edge-condition guard is vacuously
true; nothing is suppressed. -/
theorem changed_transitions_always_deferred (c : Config) (s : CPState)
    (hot : c.isOnThread = true) (hdet : c.useDeterministicGPUThread = false)
    (hwait : s.interrupt_waiting = false)
    (hch : desiredLine (UpdateWatermarkFlags (UpdateBreakpointFlag s)) ≠ s.interrupt_set) :
    (SetCPStatusFromGPU c s).interrupt_waiting = true ∧
    (SetCPStatusFromGPU c s).pending =
      s.pending ++
        [if desiredLine (UpdateWatermarkFlags (UpdateBreakpointFlag s)) then 1 else 0] ∧
    Event.scheduleUpdate
        (if desiredLine (UpdateWatermarkFlags (UpdateBreakpointFlag s)) then 1 else 0) ∈
      (SetCPStatusFromGPU c s).events := by
  unfold SetCPStatusFromGPU
  obtain ⟨hs1, hw1, hp1, -, -, -⟩ := recompute_interrupt_frame s
  obtain ⟨h1, h2, h3⟩ := dispatchFromGPU_defers c (UpdateWatermarkFlags (UpdateBreakpointFlag s))
    hot hdet (hw1.trans hwait) (fun h => hch (h.trans hs1))
  exact ⟨h1, by rw [h2, hp1], h3⟩

/-- Witness for the amended C7 at the concrete stale-assert state. -/
theorem changed_transitions_always_deferred_witness :
    cfgDual.isOnThread = true ∧ cfgDual.useDeterministicGPUThread = false ∧
    staleAssertState.interrupt_waiting = false ∧
    desiredLine (UpdateWatermarkFlags (UpdateBreakpointFlag staleAssertState)) ≠
      staleAssertState.interrupt_set ∧
    ((SetCPStatusFromGPU cfgDual staleAssertState).interrupt_waiting = true ∧
      (SetCPStatusFromGPU cfgDual staleAssertState).pending =
        staleAssertState.pending ++
          [if desiredLine (UpdateWatermarkFlags (UpdateBreakpointFlag staleAssertState))
            then 1 else 0] ∧
      Event.scheduleUpdate
          (if desiredLine (UpdateWatermarkFlags (UpdateBreakpointFlag staleAssertState))
            then 1 else 0) ∈
        (SetCPStatusFromGPU cfgDual staleAssertState).events) :=
  ⟨rfl, rfl, rfl, by decide,
    changed_transitions_always_deferred cfgDual staleAssertState rfl rfl rfl (by decide)⟩

/-- A state with the overflow alarm active, its interrupt enabled, read enabled
and the line asserted. -/
def activeAlarmState : CPState :=
  { Init with
    CPHiWatermark := 0x800, CPLoWatermark := 0x100, CPReadWriteDistance := 0x900,
    bFF_GPReadEnable := true, bFF_HiWatermark := true, bFF_HiWatermarkInt := true,
    ctrl := ⟨true, false, true, false, false, false⟩,
    interrupt_set := true }

/-- Control word clearing readEnabled while keeping the overflow interrupt
enabled. -/
def ctrlClearRead : UCPCtrlReg := ⟨false, false, true, false, false, false⟩

/-- C6 as stated is false: writing the control register with readEnabled
cleared while the overflow alarm is active does not update the asserted line —
the write handler performs no interrupt re-evaluation (no interrupt-sink call,
no deferred task); it only copies the mode flags, flushes the consumer on the
read-enable falling edge and issues a wake hint. -/
theorem ctrl_write_no_line_update :
    (WriteCtrlRegister ctrlClearRead activeAlarmState).interrupt_set = true ∧
    (WriteCtrlRegister ctrlClearRead activeAlarmState).pending = [] ∧
    (WriteCtrlRegister ctrlClearRead activeAlarmState).events =
      [Event.runGpu, Event.flushGpu] :=
  ⟨rfl, rfl, rfl⟩

/-- C6, amended: a commit/flag recomputation re-evaluates the desired line, but
a register write does not: the control-register write only updates the mode
flags and issues a wake hint, leaving the asserted line unchanged; the line
reaches the desired value at the next status recomputation — synchronously in
single-timeline mode, with at most one deferred task in dual-timeline mode. -/
theorem ctrl_write_line_updated_at_next_recompute (c : Config) (s : CPState)
    (v : UCPCtrlReg) (hdet : c.useDeterministicGPUThread = false)
    (hwait : s.interrupt_waiting = false) (hpend : s.pending = []) :
    (WriteCtrlRegister v s).interrupt_set = s.interrupt_set ∧
    (runPendingTask (SetCPStatusFromGPU c (WriteCtrlRegister v s))).interrupt_set =
      desiredLine (runPendingTask (SetCPStatusFromGPU c (WriteCtrlRegister v s))) ∧
    (SetCPStatusFromGPU c (WriteCtrlRegister v s)).pending.length ≤ 1 := by
  obtain ⟨hp, hw, hset⟩ := writeCtrl_interrupt_frame v s
  obtain ⟨h1, h2⟩ :=
    statusFromGPU_settles c (WriteCtrlRegister v s) hdet (hw.trans hwait) (hp.trans hpend)
  exact ⟨hset, h1, h2⟩

/-- Witness for the amended C6 at the concrete active-alarm state in
single-timeline mode. -/
theorem ctrl_write_line_updated_witness :
    cfgSingle.useDeterministicGPUThread = false ∧
    activeAlarmState.interrupt_waiting = false ∧ activeAlarmState.pending = [] ∧
    ((WriteCtrlRegister ctrlClearRead activeAlarmState).interrupt_set =
        activeAlarmState.interrupt_set ∧
      (runPendingTask
          (SetCPStatusFromGPU cfgSingle
            (WriteCtrlRegister ctrlClearRead activeAlarmState))).interrupt_set =
        desiredLine
          (runPendingTask
            (SetCPStatusFromGPU cfgSingle
              (WriteCtrlRegister ctrlClearRead activeAlarmState))) ∧
      (SetCPStatusFromGPU cfgSingle
          (WriteCtrlRegister ctrlClearRead activeAlarmState)).pending.length ≤ 1) :=
  ⟨rfl, rfl, rfl,
    ctrl_write_line_updated_at_next_recompute cfgSingle activeAlarmState ctrlClearRead
      rfl rfl rfl⟩

end CommandProcessor
